import Mathlib

/-!
Shallow embedding of the Cloudflare Worker PDF generator (src/index.ts):
the rate-limiter core (`checkRateLimit`), the lazy cache janitor
(`cleanupExpiredCacheIfNeeded`), the CORS helpers and the request pipeline
(`fetch`). Machine integers are modelled as `Nat`/`Int`; the KV store, the
request-body parse and the browser acquisition are modelled as per-call
oracles, since the worker only observes their outcomes. Times are
milliseconds since epoch, as returned by `Date.now()`.
-/

namespace PdfWorker

/-- Constant `RATE_LIMIT_CONFIG.maxRequests` (src/index.ts line 51). -/
def maxRequests : Nat := 20

/-- Constant `RATE_LIMIT_CONFIG.windowMs` (src/index.ts line 52). -/
def windowMs : Nat := 60000

/-- Constant `SYNC_INTERVAL` inside `checkRateLimit` (line 166). -/
def SYNC_INTERVAL : Nat := 30000

/-- The near-limit threshold `RATE_LIMIT_CONFIG.maxRequests * 0.8` (line 211).
For `maxRequests = 20` the IEEE-754 product `20 * 0.8` is exactly `16.0`,
so the comparison `count >= 16` is an exact integer rendering. -/
def nearLimitThreshold : Nat := maxRequests * 8 / 10

/-- One value of the `rateLimitCache` map:
`{ count: number; resetTime: number; lastSync: number }` (line 56). -/
structure CacheEntry where
  count : Nat
  resetTime : Nat
  lastSync : Nat
deriving DecidableEq, Repr

/-- The JSON record stored in KV: `{ count, resetTime }` (line 222). -/
structure KVData where
  count : Nat
  resetTime : Nat
deriving DecidableEq, Repr

/-- Outcome of `env.RATE_LIMIT_KV.get(key, "json")` (line 174):
either a parsed record / `null`, or a thrown error (quota exceeded). -/
inductive KVReadResult where
  | ok : Option KVData → KVReadResult
  | err : KVReadResult
deriving DecidableEq, Repr

/-- The in-memory `rateLimitCache` map, embedded as an association list;
`setEntry` on an existing key replaces the value in place, mirroring
`Map.prototype.set`. -/
abbrev RLCache := List (String × CacheEntry)

def RLCache.lookup : RLCache → String → Option CacheEntry
  | [], _ => none
  | (k, v) :: rest, key => if k = key then some v else RLCache.lookup rest key

def RLCache.setEntry : RLCache → String → CacheEntry → RLCache
  | [], key, v => [(key, v)]
  | (k, v0) :: rest, key, v =>
      if k = key then (key, v) :: rest else (k, v0) :: RLCache.setEntry rest key v

/-- The key `ratelimit:${identifier}` (line 164). -/
def rlKey (identifier : String) : String := "ratelimit:" ++ identifier

/-- One KV write issued by `checkRateLimit` (lines 220-226):
`blocking` is true when the write is awaited before the call returns
(first request / near limit, line 229), false when handed to
`ctx.waitUntil` (line 233). `succeeded` records the fate of the write in
the store; a failed write is caught by `.catch` (line 226) and only logged. -/
structure SyncWrite where
  key : String
  data : KVData
  expirationTtl : Nat
  blocking : Bool
  succeeded : Bool
deriving DecidableEq, Repr

/-- Return value of `checkRateLimit` (line 163). `remaining` is an `Int`
because the source computes plain number subtraction. -/
structure RateLimitResult where
  allowed : Bool
  remaining : Int
  resetTime : Nat
deriving DecidableEq, Repr

/-- Everything one `checkRateLimit` call produces: the returned record, the
updated `rateLimitCache`, and the KV write it issued (if any). -/
structure CheckOutcome where
  result : RateLimitResult
  cache : RLCache
  write : Option SyncWrite
deriving DecidableEq, Repr

/-- Lines 169-198 of `checkRateLimit`: resolve the working entry and the
cache after lookup / KV fallback / rollover, before the increment.
On a cache hit inside the window (`now <= resetTime`) the cache is
untouched; every other path stores a (fresh, adopted or rolled-over)
entry under the key. -/
def resolvePair (cache : RLCache) (now : Nat) (key : String)
    (kvRead : KVReadResult) : CacheEntry × RLCache :=
  match RLCache.lookup cache key with
  | none =>
      let e : CacheEntry :=
        match kvRead with
        | KVReadResult.ok (some data) =>
            if now ≤ data.resetTime then
              -- KV has valid data: adopt it, `{ ...data, lastSync: now }`
              ⟨data.count, data.resetTime, now⟩
            else
              ⟨0, now + windowMs, now⟩
        | KVReadResult.ok none => ⟨0, now + windowMs, now⟩
        | KVReadResult.err =>
            -- KV read failed: memory-only fallback (lines 186-192)
            ⟨0, now + windowMs, now⟩
      (e, RLCache.setEntry cache key e)
  | some e =>
      if e.resetTime < now then
        -- window expired: reset in place (lines 193-198)
        let e2 : CacheEntry := ⟨0, now + windowMs, now⟩
        (e2, RLCache.setEntry cache key e2)
      else (e, cache)

/-- Function `checkRateLimit` (lines 159-242). `kvWriteFails` is the oracle for the
fate of the KV `put`; its rejection is swallowed by `.catch` so it can only
show up in the emitted `SyncWrite.succeeded` field, never in the result or
the cache. -/
def checkRateLimit (cache : RLCache) (now : Nat) (identifier : String)
    (kvRead : KVReadResult) (kvWriteFails : Bool) : CheckOutcome :=
  let key := rlKey identifier
  let r := resolvePair cache now key kvRead
  let e := r.1
  let cache1 := r.2
  -- `cached.count++` (line 201)
  let newCount := e.count + 1
  if maxRequests < newCount then
    -- over the limit: `cached.count--` restores the entry, so the cache is
    -- exactly `cache1`; reject with remaining 0 and the current window end
    ⟨⟨false, 0, e.resetTime⟩, cache1, none⟩
  else
    let shouldSync : Bool := decide (SYNC_INTERVAL < now - e.lastSync)
    let isNearLimit : Bool := decide (nearLimitThreshold ≤ newCount)
    let isFirstRequest : Bool := decide (newCount = 1)
    if isFirstRequest || shouldSync || isNearLimit then
      let e2 : CacheEntry := ⟨newCount, e.resetTime, now⟩
      ⟨⟨true, (maxRequests : Int) - newCount, e.resetTime⟩,
        RLCache.setEntry cache1 key e2,
        some ⟨key, ⟨newCount, e.resetTime⟩,
          (e.resetTime - now + 999) / 1000 + 60,
          isFirstRequest || isNearLimit, !kvWriteFails⟩⟩
    else
      let e2 : CacheEntry := ⟨newCount, e.resetTime, e.lastSync⟩
      ⟨⟨true, (maxRequests : Int) - newCount, e.resetTime⟩,
        RLCache.setEntry cache1 key e2, none⟩

/-- Constant `CLEANUP_INTERVAL` inside `cleanupExpiredCacheIfNeeded` (line 67). -/
def CLEANUP_INTERVAL : Nat := 300000

/-- Function `cleanupExpiredCacheIfNeeded` (lines 65-81): a no-op unless five minutes
have elapsed since `lastCleanupTime`; otherwise it deletes every entry with
`now > resetTime + 60000` and updates `lastCleanupTime`. Returns the new
cache and the new `lastCleanupTime`. -/
def cleanupExpiredCacheIfNeeded (cache : RLCache) (lastCleanupTime now : Nat) :
    RLCache × Nat :=
  if now - lastCleanupTime < CLEANUP_INTERVAL then
    (cache, lastCleanupTime)
  else
    (cache.filter (fun p => !(decide (p.2.resetTime + 60000 < now))), now)

/-! ## CORS helpers and the request pipeline -/

/-- Constant `allowedOrigins` (line 27). -/
def allowedOrigins : List String := ["http://localhost:3000", "https://www.getinvoify.com"]

/-- Origin resolution `origin && allowedOrigins.includes(origin) ? origin : allowedOrigins[0]`
(line 248). A missing header is `null` and the empty string is falsy in JS,
so both fall back to the first allow-list entry. -/
def resolveOrigin (origin : Option String) : String :=
  match origin with
  | some o => if o ≠ "" ∧ o ∈ allowedOrigins then o else allowedOrigins.headD ""
  | none => allowedOrigins.headD ""

/-- Response headers as an association list of name/value pairs. The source
never stores two headers of the same name, and `Headers.set` replaces the
value of an existing name. -/
abbrev Headers := List (String × String)

def getHeader : Headers → String → Option String
  | [], _ => none
  | (n, v) :: rest, name => if n = name then some v else getHeader rest name

def hasHeader : Headers → String → Bool
  | [], _ => false
  | (n, _) :: rest, name => n = name || hasHeader rest name

def replaceHeader : Headers → String → String → Headers
  | [], _, _ => []
  | (n, v) :: rest, name, value =>
      if n = name then (n, value) :: replaceHeader rest name value
      else (n, v) :: replaceHeader rest name value

/-- Semantics of `Headers.set`: replace the existing header, else append. -/
def setHeader (hs : Headers) (name value : String) : Headers :=
  if hasHeader hs name then replaceHeader hs name value else hs ++ [(name, value)]

/-- Function `addCorsHeaders` (lines 42-47). -/
def addCorsHeaders (hs : Headers) (allowedOrigin : String) : Headers :=
  setHeader
    (setHeader (setHeader hs "Access-Control-Allow-Origin" allowedOrigin)
      "Access-Control-Allow-Credentials" "true")
    "Access-Control-Expose-Headers" "*"

/-- The header object built by `handleOptions` (lines 30-39). -/
def handleOptionsHeaders (allowedOrigin : String) : Headers :=
  [("Access-Control-Allow-Origin", allowedOrigin),
   ("Access-Control-Allow-Methods", "POST, OPTIONS"),
   ("Access-Control-Allow-Headers", "Content-Type, Authorization"),
   ("Access-Control-Max-Age", "86400"),
   ("Access-Control-Allow-Credentials", "true")]

/-- Test that `sub` occurs somewhere in `l`. -/
def listContains (sub : List Char) : List Char → Bool
  | [] => sub.isEmpty
  | c :: rest => List.isPrefixOf sub (c :: rest) || listContains sub rest

/-- Substring containment, as JS `String.prototype.includes`. -/
def strIncludes (s sub : String) : Bool := listContains sub.data s.data

/-- The classification at line 324:
`errorMessage.includes("429") || errorMessage.includes("Rate limit exceeded")`.
Both checks are case-sensitive in the source. -/
def isBrowserRateLimitError (msg : String) : Bool :=
  strIncludes msg "429" || strIncludes msg "Rate limit exceeded"

/-- JS `String.prototype.split` with a nonempty string separator, on char
lists. Structural recursion on a fuel argument (always called with
`fuel = s.length`, enough since every step consumes at least one char). -/
def jsSplitAux (sep : List Char) : Nat → List Char → List (List Char)
  | _, [] => [[]]
  | 0, s => [s]
  | fuel + 1, c :: rest =>
      if !sep.isEmpty && List.isPrefixOf sep (c :: rest) then
        [] :: jsSplitAux sep fuel (List.drop sep.length (c :: rest))
      else
        match jsSplitAux sep fuel rest with
        | [] => [[c]]
        | seg :: segs => (c :: seg) :: segs

def jsSplit (sep s : String) : List String :=
  (jsSplitAux sep.data s.data.length s.data).map (fun l => String.mk l)

/-- JS `String.prototype.startsWith`, on the underlying char lists. -/
def strStartsWith (s pre : String) : Bool := List.isPrefixOf pre.data s.data

/-- The request fields the handler reads: method, `Origin`,
`Authorization` and `CF-Connecting-IP` headers. -/
structure WRequest where
  method : String
  origin : Option String
  authorization : Option String
  cfConnectingIP : Option String
deriving Repr

/-- Outcome of `requestSchema.parse(JSON.parse(body))` (line 316):
`JSON.parse` throws `SyntaxError`, `parse` throws `ZodError`, or both pass. -/
inductive BodyOutcome where
  | jsonError
  | zodError
  | ok
deriving DecidableEq, Repr

/-- Outcome of `acquireBrowser(env)` (line 320): a usable browser, or a
launch error carrying a message. -/
inductive AcquireOutcome where
  | ok
  | failure (msg : String)
deriving DecidableEq, Repr

/-- Outcome of `generatePDF` (line 348): a PDF, or a thrown error that falls
through to the generic 500 handler. -/
inductive RenderOutcome where
  | ok
  | failure (msg : String)
deriving DecidableEq, Repr

/-- Per-call oracle: the clock and the outcomes of the external calls the
handler makes, in program order. -/
structure FetchOracle where
  now : Nat
  kvRead : KVReadResult
  kvWriteFails : Bool
  body : BodyOutcome
  acquire : AcquireOutcome
  render : RenderOutcome
deriving Repr

/-- The module-level mutable state the pipeline touches:
`rateLimitCache` and `lastCleanupTime` (lines 56-57). -/
structure WorkerState where
  rateLimitCache : RLCache
  lastCleanupTime : Nat
deriving DecidableEq, Repr

/-- Observable outcome of one `fetch` invocation: status and headers of the
response, whether a browser acquisition was attempted, the state left
behind, and the KV write issued by the rate limiter (if any). -/
structure FetchOutcome where
  status : Nat
  headers : Headers
  attemptedAcquire : Bool
  state : WorkerState
  write : Option SyncWrite
deriving DecidableEq, Repr

/-- The `fetch` handler (lines 245-414). `apiKey` is `env.API_KEY`;
`isoString` renders a timestamp as `new Date(t).toISOString()` does (an
external runtime facility, kept abstract). Response bodies are not
modelled; statuses and headers are. -/
def fetchHandler (st : WorkerState) (apiKey : String) (isoString : Nat → String)
    (req : WRequest) (oracle : FetchOracle) : FetchOutcome :=
  let allowedOrigin := resolveOrigin req.origin
  if req.method = "OPTIONS" then
    ⟨200, handleOptionsHeaders allowedOrigin, false, st, none⟩
  else if req.method ≠ "POST" then
    ⟨405, addCorsHeaders [("Content-Type", "application/json"), ("Allow", "POST")]
      allowedOrigin, false, st, none⟩
  else
    let unauthorized : FetchOutcome :=
      ⟨401, addCorsHeaders [("Content-Type", "application/json")] allowedOrigin,
        false, st, none⟩
    match req.authorization with
    | none => unauthorized
    | some auth =>
      if !strStartsWith auth "Bearer " then unauthorized
      else if (jsSplit "Bearer " auth).getD 1 "" ≠ apiKey then unauthorized
      else
        let cleaned := cleanupExpiredCacheIfNeeded st.rateLimitCache
          st.lastCleanupTime oracle.now
        let clientIP := req.cfConnectingIP.getD "unknown"
        let rl := checkRateLimit cleaned.1 oracle.now clientIP oracle.kvRead
          oracle.kvWriteFails
        let st2 : WorkerState := ⟨rl.cache, cleaned.2⟩
        if !rl.result.allowed then
          let retryAfter := max 1 ((rl.result.resetTime - oracle.now + 999) / 1000)
          ⟨429, addCorsHeaders
            [("Content-Type", "application/json"),
             ("Retry-After", toString retryAfter),
             ("X-RateLimit-Limit", toString maxRequests),
             ("X-RateLimit-Remaining", "0"),
             ("X-RateLimit-Reset", isoString rl.result.resetTime)] allowedOrigin,
            false, st2, rl.write⟩
        else
          match oracle.body with
          | BodyOutcome.jsonError =>
            ⟨400, addCorsHeaders [("Content-Type", "application/json")] allowedOrigin,
              false, st2, rl.write⟩
          | BodyOutcome.zodError =>
            ⟨400, addCorsHeaders [("Content-Type", "application/json")] allowedOrigin,
              false, st2, rl.write⟩
          | BodyOutcome.ok =>
            match oracle.acquire with
            | AcquireOutcome.failure msg =>
              if isBrowserRateLimitError msg then
                ⟨429, addCorsHeaders
                  [("Content-Type", "application/json"), ("Retry-After", "60")]
                  allowedOrigin, true, st2, rl.write⟩
              else
                -- rethrown, caught by the generic handler (lines 343-412)
                ⟨500, addCorsHeaders [("Content-Type", "application/json")]
                  allowedOrigin, true, st2, rl.write⟩
            | AcquireOutcome.ok =>
              match oracle.render with
              | RenderOutcome.ok =>
                ⟨200, addCorsHeaders
                  [("Content-Type", "application/pdf"),
                   ("X-RateLimit-Limit", toString maxRequests),
                   ("X-RateLimit-Remaining", toString rl.result.remaining),
                   ("X-RateLimit-Reset", isoString rl.result.resetTime)]
                  allowedOrigin, true, st2, rl.write⟩
              | RenderOutcome.failure _ =>
                ⟨500, addCorsHeaders [("Content-Type", "application/json")]
                  allowedOrigin, true, st2, rl.write⟩

/-! ## Cache map lemmas -/

theorem lookup_setEntry_self (c : RLCache) (k : String) (v : CacheEntry) :
    RLCache.lookup (RLCache.setEntry c k v) k = some v := by
  induction c with
  | nil => simp [RLCache.setEntry, RLCache.lookup]
  | cons hd tl ih =>
    obtain ⟨a, b⟩ := hd
    by_cases h : a = k
    · simp [RLCache.setEntry, RLCache.lookup, h]
    · simp [RLCache.setEntry, RLCache.lookup, h, ih]

/-- On a cache hit inside the window (`now ≤ resetTime`), one call either
rejects leaving everything exactly as it was, or admits and bumps the
count by one under the same window end. -/
theorem checkRateLimit_hit (cache : RLCache) (id : String) (e : CacheEntry)
    (now : Nat) (kv : KVReadResult) (b : Bool)
    (hl : RLCache.lookup cache (rlKey id) = some e) (hw : now ≤ e.resetTime) :
    (maxRequests < e.count + 1 →
      checkRateLimit cache now id kv b = ⟨⟨false, 0, e.resetTime⟩, cache, none⟩) ∧
    (e.count + 1 ≤ maxRequests →
      (checkRateLimit cache now id kv b).result.allowed = true ∧
      ∃ ls, RLCache.lookup (checkRateLimit cache now id kv b).cache (rlKey id) =
        some ⟨e.count + 1, e.resetTime, ls⟩) := by
  have hres : resolvePair cache now (rlKey id) kv = (e, cache) := by
    unfold resolvePair
    rw [hl]
    simp [Nat.not_lt.mpr hw]
  constructor
  · intro h
    simp only [checkRateLimit, hres]
    simp [h]
  · intro h
    simp only [checkRateLimit, hres]
    rw [if_neg (by omega)]
    split
    · exact ⟨rfl, now, lookup_setEntry_self ..⟩
    · exact ⟨rfl, e.lastSync, lookup_setEntry_self ..⟩

/-- A sequence of `checkRateLimit` calls for one identifier: returns the
final cache and the number of calls that were admitted (`allowed = true`).
Each call carries its own clock reading and KV-read oracle. -/
def runCalls (id : String) : RLCache → List (Nat × KVReadResult) → RLCache × Nat
  | cache, [] => (cache, 0)
  | cache, (now, kv) :: rest =>
    let out := checkRateLimit cache now id kv false
    let r := runCalls id out.cache rest
    (r.1, (if out.result.allowed then 1 else 0) + r.2)

theorem runCalls_bound (id : String) :
    ∀ (calls : List (Nat × KVReadResult)) (cache : RLCache) (e : CacheEntry),
      RLCache.lookup cache (rlKey id) = some e →
      (∀ c ∈ calls, c.1 ≤ e.resetTime) →
      (runCalls id cache calls).2 ≤ maxRequests - e.count := by
  intro calls
  induction calls with
  | nil => intro cache e _ _; simp [runCalls]
  | cons hd tl ih =>
    intro cache e hl hc
    obtain ⟨now, kv⟩ := hd
    have hw : now ≤ e.resetTime := hc (now, kv) (List.mem_cons_self _ _)
    have htl : ∀ c ∈ tl, c.1 ≤ e.resetTime :=
      fun c hm => hc c (List.mem_cons.mpr (Or.inr hm))
    have hstep := checkRateLimit_hit cache id e now kv false hl hw
    by_cases hcount : maxRequests < e.count + 1
    · have heq := hstep.1 hcount
      have hrest := ih cache e hl htl
      simp only [runCalls, heq]
      simpa using hrest
    · have hcount2 : e.count + 1 ≤ maxRequests := by omega
      have hall := (hstep.2 hcount2).1
      obtain ⟨ls, hl2⟩ := (hstep.2 hcount2).2
      have hrest := ih (checkRateLimit cache now id kv false).cache
        ⟨e.count + 1, e.resetTime, ls⟩ hl2 htl
      simp only [runCalls, hall]
      simp only [CacheEntry.count] at hrest
      simp only [if_pos]
      omega

/-- C1: for every identifier, once its window entry exists, any sequence of
calls whose clock readings stay inside that window admits at most
`maxRequests - count` further requests (hence never more than the
configured maximum of 20); and a call whose speculative increment would
exceed the maximum restores the count (the whole cache is unchanged),
issues no KV write, and returns `allowed = false`, `remaining = 0` and the
window's current `resetTime`. -/
theorem rate_window_admits_at_most_max :
    (∀ (cache : RLCache) (id : String) (e : CacheEntry)
        (calls : List (Nat × KVReadResult)),
        RLCache.lookup cache (rlKey id) = some e →
        (∀ c ∈ calls, c.1 ≤ e.resetTime) →
        (runCalls id cache calls).2 ≤ maxRequests - e.count ∧
        (runCalls id cache calls).2 ≤ maxRequests)
    ∧ (∀ (cache : RLCache) (id : String) (e : CacheEntry) (now : Nat)
        (kv : KVReadResult) (b : Bool),
        RLCache.lookup cache (rlKey id) = some e → now ≤ e.resetTime →
        maxRequests < e.count + 1 →
        checkRateLimit cache now id kv b = ⟨⟨false, 0, e.resetTime⟩, cache, none⟩) := by
  constructor
  · intro cache id e calls hl hc
    have h := runCalls_bound id calls cache e hl hc
    exact ⟨h, le_trans h (Nat.sub_le _ _)⟩
  · intro cache id e now kv b hl hw hcount
    exact (checkRateLimit_hit cache id e now kv b hl hw).1 hcount

/-- Witness for C1 at concrete inputs: a window already holding 18 requests
admits at most 20 in total over three more calls, and a call at count 20
is rejected with the stated shape. -/
theorem rate_window_admits_at_most_max_witness :
    (runCalls "a" [("ratelimit:a", ⟨18, 1000, 0⟩)]
      [(5, KVReadResult.ok none), (6, KVReadResult.ok none),
       (7, KVReadResult.ok none)]).2 ≤ maxRequests ∧
    checkRateLimit [("ratelimit:a", ⟨20, 1000, 0⟩)] 5 "a" (KVReadResult.ok none) false
      = ⟨⟨false, 0, 1000⟩, [("ratelimit:a", ⟨20, 1000, 0⟩)], none⟩ :=
  ⟨(rate_window_admits_at_most_max.1 [("ratelimit:a", ⟨18, 1000, 0⟩)] "a"
      ⟨18, 1000, 0⟩ _ (by decide) (by decide)).2,
    rate_window_admits_at_most_max.2 [("ratelimit:a", ⟨20, 1000, 0⟩)] "a"
      ⟨20, 1000, 0⟩ 5 (KVReadResult.ok none) false (by decide) (by decide) (by decide)⟩

/-- On a cache miss with an unexpired KV record (`now ≤ data.resetTime`),
the record is adopted: after the call the entry under the key carries the
record's `resetTime`, with the count either intact (rejection) or bumped
by one (admission). -/
theorem checkRateLimit_miss_adopt (cache : RLCache) (id : String) (data : KVData)
    (now : Nat) (b : Bool)
    (hl : RLCache.lookup cache (rlKey id) = none) (hw : now ≤ data.resetTime) :
    ∃ e2 : CacheEntry,
      RLCache.lookup
        (checkRateLimit cache now id (KVReadResult.ok (some data)) b).cache
        (rlKey id) = some e2 ∧
      e2.resetTime = data.resetTime ∧
      (e2.count = data.count ∨ e2.count = data.count + 1) := by
  have hres : resolvePair cache now (rlKey id) (KVReadResult.ok (some data))
      = (⟨data.count, data.resetTime, now⟩,
         RLCache.setEntry cache (rlKey id) ⟨data.count, data.resetTime, now⟩) := by
    unfold resolvePair
    rw [hl]
    simp [hw]
  by_cases hc : maxRequests < data.count + 1
  · refine ⟨⟨data.count, data.resetTime, now⟩, ?_, rfl, Or.inl rfl⟩
    simp only [checkRateLimit, hres]
    rw [if_pos hc]
    exact lookup_setEntry_self ..
  · simp only [checkRateLimit, hres]
    rw [if_neg hc]
    split
    · exact ⟨⟨data.count + 1, data.resetTime, now⟩, lookup_setEntry_self .., rfl,
        Or.inr rfl⟩
    · exact ⟨⟨data.count + 1, data.resetTime, now⟩, lookup_setEntry_self .., rfl,
        Or.inr rfl⟩

/-- C4 counterexample: the claim says a call at `now == windowEnd` rolls the
window over on a cache hit and refuses to adopt a same-`windowEnd` durable
record on a miss. At `now = 1000` with entry `⟨5, 1000, 0⟩` the code
increments under the same window (no rollover), and on a miss it adopts the
KV record `⟨7, 1000⟩`. -/
theorem window_end_equality_cex :
    (RLCache.lookup (checkRateLimit [("ratelimit:a", ⟨5, 1000, 0⟩)] 1000 "a"
        (KVReadResult.ok none) false).cache "ratelimit:a" = some ⟨6, 1000, 0⟩) ∧
    ¬ (RLCache.lookup (checkRateLimit [("ratelimit:a", ⟨5, 1000, 0⟩)] 1000 "a"
        (KVReadResult.ok none) false).cache "ratelimit:a" = some ⟨1, 61000, 1000⟩) ∧
    (RLCache.lookup (checkRateLimit [] 1000 "a"
        (KVReadResult.ok (some ⟨7, 1000⟩)) false).cache "ratelimit:a"
      = some ⟨8, 1000, 1000⟩) := by decide

/-- C4 amended: a call arriving exactly at `now == windowEnd` is treated as
INSIDE the window (the rollover test is strict `now > windowEnd` and the
adoption test is inclusive `now <= resetTime`): on a cache hit the window
end is preserved and the count increments (or is restored on rejection),
and on a cache miss a durable record with `resetTime = now` IS adopted. -/
theorem window_end_equality_inside_window :
    (∀ (cache : RLCache) (id : String) (e : CacheEntry) (kv : KVReadResult) (b : Bool),
      RLCache.lookup cache (rlKey id) = some e →
      (checkRateLimit cache e.resetTime id kv b).result.resetTime = e.resetTime ∧
      (RLCache.lookup (checkRateLimit cache e.resetTime id kv b).cache (rlKey id)).map
          CacheEntry.resetTime = some e.resetTime ∧
      (RLCache.lookup (checkRateLimit cache e.resetTime id kv b).cache (rlKey id)).map
          CacheEntry.count
        = some (if maxRequests < e.count + 1 then e.count else e.count + 1))
    ∧ (∀ (cache : RLCache) (id : String) (data : KVData) (b : Bool),
      RLCache.lookup cache (rlKey id) = none →
      (RLCache.lookup (checkRateLimit cache data.resetTime id
          (KVReadResult.ok (some data)) b).cache (rlKey id)).map CacheEntry.resetTime
        = some data.resetTime) := by
  constructor
  · intro cache id e kv b hl
    have hstep := checkRateLimit_hit cache id e e.resetTime kv b hl (le_refl _)
    by_cases hc : maxRequests < e.count + 1
    · have heq := hstep.1 hc
      rw [heq]
      simp [hl, hc]
    · have hres : resolvePair cache e.resetTime (rlKey id) kv = (e, cache) := by
        unfold resolvePair
        rw [hl]
        simp
      obtain ⟨ls, hl2⟩ := (hstep.2 (by omega)).2
      refine ⟨?_, ?_, ?_⟩
      · simp only [checkRateLimit, hres]
        rw [if_neg hc]
        split <;> rfl
      · rw [hl2]; rfl
      · rw [hl2]; simp [hc]
  · intro cache id data b hl
    obtain ⟨e2, hl2, hrt, _⟩ :=
      checkRateLimit_miss_adopt cache id data data.resetTime b hl (le_refl _)
    rw [hl2]
    simp [hrt]

/-- Witness for C4 at a concrete input. -/
theorem window_end_equality_inside_window_witness :
    ((checkRateLimit [("ratelimit:a", ⟨5, 1000, 0⟩)] 1000 "a"
        (KVReadResult.ok none) false).result.resetTime = 1000 ∧
      (RLCache.lookup (checkRateLimit [("ratelimit:a", ⟨5, 1000, 0⟩)] 1000 "a"
          (KVReadResult.ok none) false).cache (rlKey "a")).map CacheEntry.count
        = some 6) ∧
    (RLCache.lookup (checkRateLimit [] 1000 "a"
        (KVReadResult.ok (some ⟨7, 1000⟩)) false).cache (rlKey "a")).map
      CacheEntry.resetTime = some 1000 := by
  have h1 := window_end_equality_inside_window.1
    [("ratelimit:a", ⟨5, 1000, 0⟩)] "a" ⟨5, 1000, 0⟩ (KVReadResult.ok none) false
    (by decide)
  have h2 := window_end_equality_inside_window.2 [] "a" ⟨7, 1000⟩ false (by decide)
  refine ⟨⟨h1.1, ?_⟩, h2⟩
  have := h1.2.2
  simpa using this

/-- C10 counterexample: a rejected call does NOT always leave the process
state unchanged: on a cache miss whose adopted durable record is already at
the maximum, the call rejects yet inserts a fresh cache entry for the
identifier (there was none at entry to the call). -/
theorem rejected_call_state_change_cex :
    (checkRateLimit [] 0 "a" (KVReadResult.ok (some ⟨20, 50000⟩)) false).result.allowed
      = false ∧
    (checkRateLimit [] 0 "a" (KVReadResult.ok (some ⟨20, 50000⟩)) false).cache
      = [("ratelimit:a", ⟨20, 50000, 0⟩)] ∧
    RLCache.lookup ([] : RLCache) "ratelimit:a" = none := by decide

/-- C10 amended: a rejected call never issues a durable-store write, and
whenever the identifier already had a cache entry at entry to the call, the
whole cache (hence the entry's count, windowEnd and lastSync) is left
exactly unchanged; only a rejected cache-miss call may insert the entry it
adopted from the durable store. -/
theorem rejected_call_no_write_cache_stable :
    ∀ (cache : RLCache) (now : Nat) (id : String) (kv : KVReadResult) (b : Bool),
      (checkRateLimit cache now id kv b).result.allowed = false →
      (checkRateLimit cache now id kv b).write = none ∧
      (∀ e, RLCache.lookup cache (rlKey id) = some e →
        (checkRateLimit cache now id kv b).cache = cache) := by
  intro cache now id kv b h
  by_cases hc : maxRequests < (resolvePair cache now (rlKey id) kv).1.count + 1
  · constructor
    · simp only [checkRateLimit]
      rw [if_pos hc]
    · intro e hl
      by_cases hexp : e.resetTime < now
      · -- rollover resets the count to 0, which cannot exceed the limit
        exfalso
        have hres : resolvePair cache now (rlKey id) kv
            = (⟨0, now + windowMs, now⟩,
               RLCache.setEntry cache (rlKey id) ⟨0, now + windowMs, now⟩) := by
          unfold resolvePair
          rw [hl]
          simp [hexp]
        rw [hres] at hc
        simp [maxRequests] at hc
      · have hres : resolvePair cache now (rlKey id) kv = (e, cache) := by
          unfold resolvePair
          rw [hl]
          simp [hexp]
        simp only [checkRateLimit]
        rw [hres] at hc ⊢
        rw [if_pos hc]
  · exfalso
    simp only [checkRateLimit] at h
    rw [if_neg hc] at h
    split at h <;> simp at h

/-- Witness for C10 at a concrete input: a rejected in-window call leaves
the cache untouched and writes nothing. -/
theorem rejected_call_no_write_cache_stable_witness :
    (checkRateLimit [("ratelimit:a", ⟨20, 1000, 0⟩)] 5 "a" (KVReadResult.ok none)
        false).write = none ∧
    (checkRateLimit [("ratelimit:a", ⟨20, 1000, 0⟩)] 5 "a" (KVReadResult.ok none)
        false).cache = [("ratelimit:a", ⟨20, 1000, 0⟩)] := by
  have h := rejected_call_no_write_cache_stable [("ratelimit:a", ⟨20, 1000, 0⟩)] 5 "a"
    (KVReadResult.ok none) false (by decide)
  exact ⟨h.1, h.2 ⟨20, 1000, 0⟩ (by decide)⟩

/-- C5: on an admitted call a KV write is issued exactly when the request is
the first of its window (count becomes 1), or the post-increment count is at
or above the 80% threshold, or more than `SYNC_INTERVAL` has elapsed since
the entry's last sync; the write blocks the caller (is awaited) exactly in
the first-request and near-limit cases, and is fire-and-forget in the pure
interval case. -/
theorem kv_sync_policy :
    ∀ (cache : RLCache) (now : Nat) (id : String) (kv : KVReadResult) (b : Bool),
      (checkRateLimit cache now id kv b).result.allowed = true →
      ((checkRateLimit cache now id kv b).write.isSome =
        (decide ((resolvePair cache now (rlKey id) kv).1.count + 1 = 1) ||
         decide (SYNC_INTERVAL <
           now - (resolvePair cache now (rlKey id) kv).1.lastSync) ||
         decide (nearLimitThreshold ≤ (resolvePair cache now (rlKey id) kv).1.count + 1)))
      ∧ (∀ w, (checkRateLimit cache now id kv b).write = some w →
          w.blocking =
            (decide ((resolvePair cache now (rlKey id) kv).1.count + 1 = 1) ||
             decide (nearLimitThreshold ≤
               (resolvePair cache now (rlKey id) kv).1.count + 1))) := by
  intro cache now id kv b h
  by_cases hc : maxRequests < (resolvePair cache now (rlKey id) kv).1.count + 1
  · exfalso
    simp only [checkRateLimit] at h
    rw [if_pos hc] at h
    simp at h
  · simp only [checkRateLimit]
    rw [if_neg hc]
    split
    · rename_i hcond
      constructor
      · simp only [Option.isSome_some]
        exact hcond.symm
      · intro w hw
        simp only [Option.some.injEq] at hw
        rw [← hw]
    · rename_i hcond
      rw [Bool.not_eq_true] at hcond
      constructor
      · simp only [Option.isSome_none]
        exact hcond.symm
      · intro w hw
        simp at hw

/-- Witness for C5: the very first request of a window issues a blocking
write. -/
theorem kv_sync_policy_witness :
    (checkRateLimit [] 0 "a" (KVReadResult.ok none) false).write.isSome = true ∧
    ∀ w, (checkRateLimit [] 0 "a" (KVReadResult.ok none) false).write = some w →
      w.blocking = true := by
  have h := kv_sync_policy [] 0 "a" (KVReadResult.ok none) false (by decide)
  constructor
  · rw [h.1]; decide
  · intro w hw
    rw [h.2 w hw]; decide

/-- C6: a rate-limit check never fails because of the durable store. If the
KV read throws, a fresh in-memory window is started and the call is
admitted in memory-only mode; and the fate of a KV write (which is caught
and only logged) has no influence on the returned decision, the cache left
behind, or whether a write was issued. -/
theorem store_failure_resilience :
    (∀ (cache : RLCache) (now : Nat) (id : String) (b : Bool),
      RLCache.lookup cache (rlKey id) = none →
      (checkRateLimit cache now id KVReadResult.err b).result
        = ⟨true, (maxRequests : Int) - 1, now + windowMs⟩ ∧
      RLCache.lookup (checkRateLimit cache now id KVReadResult.err b).cache (rlKey id)
        = some ⟨1, now + windowMs, now⟩)
    ∧ (∀ (cache : RLCache) (now : Nat) (id : String) (kv : KVReadResult),
      (checkRateLimit cache now id kv true).result
        = (checkRateLimit cache now id kv false).result ∧
      (checkRateLimit cache now id kv true).cache
        = (checkRateLimit cache now id kv false).cache ∧
      (checkRateLimit cache now id kv true).write.isSome
        = (checkRateLimit cache now id kv false).write.isSome) := by
  constructor
  · intro cache now id b hl
    have hres : resolvePair cache now (rlKey id) KVReadResult.err
        = (⟨0, now + windowMs, now⟩,
           RLCache.setEntry cache (rlKey id) ⟨0, now + windowMs, now⟩) := by
      unfold resolvePair
      rw [hl]
    simp only [checkRateLimit, hres]
    rw [if_neg (by simp [maxRequests])]
    rw [if_pos (by simp)]
    exact ⟨rfl, lookup_setEntry_self ..⟩
  · intro cache now id kv
    by_cases hc : maxRequests < (resolvePair cache now (rlKey id) kv).1.count + 1
    · simp only [checkRateLimit]
      rw [if_pos hc, if_pos hc]
      exact ⟨rfl, rfl, rfl⟩
    · simp only [checkRateLimit]
      rw [if_neg hc, if_neg hc]
      split
      · exact ⟨rfl, rfl, rfl⟩
      · exact ⟨rfl, rfl, rfl⟩

/-- Witness for C6: with an empty cache and a throwing KV read, the call is
admitted with a fresh window. -/
theorem store_failure_resilience_witness :
    (checkRateLimit [] 7 "a" KVReadResult.err false).result
      = ⟨true, (maxRequests : Int) - 1, 7 + windowMs⟩ ∧
    (checkRateLimit [] 7 "a" KVReadResult.err true).cache
      = (checkRateLimit [] 7 "a" KVReadResult.err false).cache :=
  ⟨(store_failure_resilience.1 [] 7 "a" false (by decide)).1,
   (store_failure_resilience.2 [] 7 "a" KVReadResult.err).2.1⟩

/-- C8: an admitted call returns `remaining = maxRequests - count` where
`count` is the post-increment count stored in the cache, and this is never
negative; a rejected call returns `remaining = 0`. -/
theorem remaining_equals_max_minus_count :
    ∀ (cache : RLCache) (now : Nat) (id : String) (kv : KVReadResult) (b : Bool),
      ((checkRateLimit cache now id kv b).result.allowed = true →
        (RLCache.lookup (checkRateLimit cache now id kv b).cache (rlKey id)).map
            CacheEntry.count
          = some ((resolvePair cache now (rlKey id) kv).1.count + 1) ∧
        (checkRateLimit cache now id kv b).result.remaining
          = (maxRequests : Int) - ((resolvePair cache now (rlKey id) kv).1.count + 1) ∧
        0 ≤ (checkRateLimit cache now id kv b).result.remaining) ∧
      ((checkRateLimit cache now id kv b).result.allowed = false →
        (checkRateLimit cache now id kv b).result.remaining = 0) := by
  intro cache now id kv b
  by_cases hc : maxRequests < (resolvePair cache now (rlKey id) kv).1.count + 1
  · constructor
    · intro h
      exfalso
      simp only [checkRateLimit] at h
      rw [if_pos hc] at h
      simp at h
    · intro _
      simp only [checkRateLimit]
      rw [if_pos hc]
  · constructor
    · intro _
      have hrem : (0 : Int) ≤ (maxRequests : Int)
          - ((resolvePair cache now (rlKey id) kv).1.count + 1 : Nat) := by
        have := Nat.not_lt.mp hc
        omega
      simp only [checkRateLimit]
      rw [if_neg hc]
      split
      · refine ⟨?_, by push_cast; ring_nf, by exact_mod_cast hrem⟩
        rw [lookup_setEntry_self]
        rfl
      · refine ⟨?_, by push_cast; ring_nf, by exact_mod_cast hrem⟩
        rw [lookup_setEntry_self]
        rfl
    · intro h
      exfalso
      simp only [checkRateLimit] at h
      rw [if_neg hc] at h
      split at h <;> simp at h

/-- Witness for C8 at a concrete input. -/
theorem remaining_equals_max_minus_count_witness :
    ((checkRateLimit [("ratelimit:a", ⟨4, 1000, 0⟩)] 5 "a" (KVReadResult.ok none)
        false).result.remaining
      = (maxRequests : Int)
        - ((resolvePair [("ratelimit:a", ⟨4, 1000, 0⟩)] 5 (rlKey "a")
            (KVReadResult.ok none)).1.count + 1)) ∧
    (checkRateLimit [("ratelimit:a", ⟨20, 1000, 0⟩)] 5 "a" (KVReadResult.ok none)
        false).result.remaining = 0 :=
  ⟨((remaining_equals_max_minus_count [("ratelimit:a", ⟨4, 1000, 0⟩)] 5 "a"
      (KVReadResult.ok none) false).1 (by decide)).2.1,
   (remaining_equals_max_minus_count [("ratelimit:a", ⟨20, 1000, 0⟩)] 5 "a"
      (KVReadResult.ok none) false).2 (by decide)⟩

/-! ## Janitor (C3) -/

/-- A cache of 1001 distinct identifiers, all holding an unexpired window
(ending at t = 400000). -/
def manyEntries : RLCache :=
  (List.range 1001).map (fun i => (toString i, ⟨1, 400000, 0⟩))

set_option maxRecDepth 8000 in
/-- C3 (code evaluated at the failing input): a due sweep over a cache of
1001 unexpired entries runs (it updates `lastCleanupTime`) but deletes
nothing — the code has no second, size-capping pass, so the cache stays at
1001 entries, above the claimed 1000-entry maximum. -/
theorem janitor_has_no_size_cap :
    1000 < manyEntries.length ∧
    (cleanupExpiredCacheIfNeeded manyEntries 0 300000).2 = 300000 ∧
    (cleanupExpiredCacheIfNeeded manyEntries 0 300000).1 = manyEntries := by
  refine ⟨?_, ?_, ?_⟩
  · simp only [manyEntries, List.length_map, List.length_range]
    omega
  · simp only [cleanupExpiredCacheIfNeeded, CLEANUP_INTERVAL]
    rw [if_neg (by omega)]
  · simp only [cleanupExpiredCacheIfNeeded, CLEANUP_INTERVAL]
    rw [if_neg (by omega)]
    refine List.filter_eq_self.mpr ?_
    intro a ha
    simp only [manyEntries, List.mem_map, List.mem_range] at ha
    obtain ⟨i, _, hi⟩ := ha
    have ha2 : a.2 = ⟨1, 400000, 0⟩ := by rw [← hi]
    simp [ha2]

/-! ## Pipeline classification (C2, C7) -/

set_option maxRecDepth 8000 in
/-- C2 (code evaluated at the failing input): after a request whose browser
acquisition fails with a capacity rejection (message containing "429"), a
second request arriving one second later STILL reaches the acquisition
stage (there is no `blockedUntil` cooldown state in the worker), and when
its acquisition fails again the response carries the constant
`Retry-After: 60` rather than a freshly computed remaining wait. -/
theorem no_cooldown_after_capacity_rejection :
    (let req : WRequest := ⟨"POST", none, some "Bearer k", some "1.2.3.4"⟩
     let failing : FetchOracle :=
       ⟨0, KVReadResult.ok none, false, BodyOutcome.ok,
        AcquireOutcome.failure "429 Too Many Requests", RenderOutcome.ok⟩
     let out1 := fetchHandler ⟨[], 0⟩ "k" (fun _ => "") req failing
     let out2 := fetchHandler out1.state "k" (fun _ => "")  req
       ⟨1000, KVReadResult.ok none, false, BodyOutcome.ok,
        AcquireOutcome.failure "429 Too Many Requests", RenderOutcome.ok⟩
     out1.status = 429 ∧ out1.attemptedAcquire = true ∧
     getHeader out1.headers "Retry-After" = some "60" ∧
     out2.attemptedAcquire = true ∧
     getHeader out2.headers "Retry-After" = some "60") := by decide

/-- C7 (code evaluated at the failing input): the capacity classifier is
case-SENSITIVE — it tests `includes("429")` and
`includes("Rate limit exceeded")` verbatim — so an acquisition failure
whose message reads "rate limit exceeded" in lower case is NOT classified
as a capacity rejection and falls through to the generic 500 path. -/
theorem capacity_match_is_case_sensitive :
    isBrowserRateLimitError "rate limit exceeded" = false ∧
    isBrowserRateLimitError "Rate limit exceeded hit" = true ∧
    (fetchHandler ⟨[], 0⟩ "k" (fun _ => "")
        ⟨"POST", none, some "Bearer k", some "1.2.3.4"⟩
        ⟨0, KVReadResult.ok none, false, BodyOutcome.ok,
         AcquireOutcome.failure "rate limit exceeded", RenderOutcome.ok⟩).status
      = 500 := by decide

/-! ## CORS header lemmas (C9) -/

theorem getHeader_append_of_not_has (hs : Headers) (name v : String)
    (h : hasHeader hs name = false) :
    getHeader (hs ++ [(name, v)]) name = some v := by
  induction hs with
  | nil => simp [getHeader]
  | cons hd tl ih =>
    obtain ⟨n, w⟩ := hd
    simp only [hasHeader, Bool.or_eq_false_iff, decide_eq_false_iff_not] at h
    simp [getHeader, h.1, ih h.2]

theorem getHeader_replaceHeader_self (hs : Headers) (name v : String)
    (h : hasHeader hs name = true) :
    getHeader (replaceHeader hs name v) name = some v := by
  induction hs with
  | nil => simp [hasHeader] at h
  | cons hd tl ih =>
    obtain ⟨n, w⟩ := hd
    by_cases hn : n = name
    · simp [replaceHeader, getHeader, hn]
    · simp only [hasHeader, hn] at h
      simp only [Bool.or_eq_true, decide_eq_true_eq, false_or] at h
      simp [replaceHeader, getHeader, hn, ih h]

theorem getHeader_setHeader_self (hs : Headers) (name v : String) :
    getHeader (setHeader hs name v) name = some v := by
  unfold setHeader
  split
  · exact getHeader_replaceHeader_self _ _ _ (by assumption)
  · rename_i h
    rw [Bool.not_eq_true] at h
    exact getHeader_append_of_not_has _ _ _ h

theorem getHeader_replaceHeader_ne (hs : Headers) (name v name2 : String)
    (h : name ≠ name2) :
    getHeader (replaceHeader hs name v) name2 = getHeader hs name2 := by
  induction hs with
  | nil => rfl
  | cons hd tl ih =>
    obtain ⟨n, w⟩ := hd
    by_cases hn : n = name
    · subst hn
      have h2 : n ≠ name2 := h
      simp [replaceHeader, getHeader, h2, ih]
    · simp [replaceHeader, getHeader, hn, ih]

theorem getHeader_append_ne (hs : Headers) (name v name2 : String)
    (h : name ≠ name2) :
    getHeader (hs ++ [(name, v)]) name2 = getHeader hs name2 := by
  induction hs with
  | nil => simp [getHeader, h]
  | cons hd tl ih =>
    obtain ⟨n, w⟩ := hd
    by_cases hn : n = name2 <;> simp [getHeader, hn, ih]

theorem getHeader_setHeader_ne (hs : Headers) (name v name2 : String)
    (h : name ≠ name2) :
    getHeader (setHeader hs name v) name2 = getHeader hs name2 := by
  unfold setHeader
  split
  · exact getHeader_replaceHeader_ne _ _ _ _ h
  · exact getHeader_append_ne _ _ _ _ h

theorem addCors_allow_origin (hs : Headers) (o : String) :
    getHeader (addCorsHeaders hs o) "Access-Control-Allow-Origin" = some o := by
  unfold addCorsHeaders
  rw [getHeader_setHeader_ne _ _ _ _ (by decide),
    getHeader_setHeader_ne _ _ _ _ (by decide), getHeader_setHeader_self]

theorem addCors_credentials (hs : Headers) (o : String) :
    getHeader (addCorsHeaders hs o) "Access-Control-Allow-Credentials"
      = some "true" := by
  unfold addCorsHeaders
  rw [getHeader_setHeader_ne _ _ _ _ (by decide), getHeader_setHeader_self]

theorem addCors_expose (hs : Headers) (o : String) :
    getHeader (addCorsHeaders hs o) "Access-Control-Expose-Headers" = some "*" :=
  getHeader_setHeader_self ..

/-- C9 counterexample: the claim requires every response — including the
OPTIONS preflight — to carry `Access-Control-Expose-Headers: *`, but
`handleOptions` never sets that header. -/
theorem preflight_missing_expose_header_cex :
    (fetchHandler ⟨[], 0⟩ "k" (fun _ => "") ⟨"OPTIONS", none, none, none⟩
        ⟨0, KVReadResult.ok none, false, BodyOutcome.ok, AcquireOutcome.ok,
         RenderOutcome.ok⟩).status = 200 ∧
    getHeader (fetchHandler ⟨[], 0⟩ "k" (fun _ => "") ⟨"OPTIONS", none, none, none⟩
        ⟨0, KVReadResult.ok none, false, BodyOutcome.ok, AcquireOutcome.ok,
         RenderOutcome.ok⟩).headers "Access-Control-Expose-Headers" = none := by decide

/-- C9 amended: every response carries `Access-Control-Allow-Origin`
resolved from the request's Origin against the allow-list (falling back to
its first entry) and `Access-Control-Allow-Credentials: true`; every
NON-preflight response additionally carries
`Access-Control-Expose-Headers: *` (the OPTIONS preflight omits it). -/
theorem responses_carry_cors_headers :
    ∀ (st : WorkerState) (apiKey : String) (iso : Nat → String) (req : WRequest)
      (oracle : FetchOracle),
      getHeader (fetchHandler st apiKey iso req oracle).headers
          "Access-Control-Allow-Origin" = some (resolveOrigin req.origin) ∧
      getHeader (fetchHandler st apiKey iso req oracle).headers
          "Access-Control-Allow-Credentials" = some "true" ∧
      (req.method ≠ "OPTIONS" →
        getHeader (fetchHandler st apiKey iso req oracle).headers
          "Access-Control-Expose-Headers" = some "*") := by
  intro st apiKey iso req oracle
  simp only [fetchHandler]
  split
  · rename_i hm
    exact ⟨rfl, rfl, fun h => absurd hm h⟩
  · repeat' split
    all_goals dsimp only
    all_goals
      exact ⟨addCors_allow_origin _ _, addCors_credentials _ _,
        fun _ => addCors_expose _ _⟩

/-- Witness for C9 at a concrete non-preflight request. -/
theorem responses_carry_cors_headers_witness :
    getHeader (fetchHandler ⟨[], 0⟩ "k" (fun _ => "")
        ⟨"GET", some "https://www.getinvoify.com", none, none⟩
        ⟨0, KVReadResult.ok none, false, BodyOutcome.ok, AcquireOutcome.ok,
         RenderOutcome.ok⟩).headers "Access-Control-Expose-Headers" = some "*" :=
  (responses_carry_cors_headers ⟨[], 0⟩ "k" (fun _ => "")
    ⟨"GET", some "https://www.getinvoify.com", none, none⟩
    ⟨0, KVReadResult.ok none, false, BodyOutcome.ok, AcquireOutcome.ok,
     RenderOutcome.ok⟩).2.2 (by decide)

end PdfWorker
